import Mathlib

/-!
Verification development for the subscheck-singbox node-testing pipeline.

The Python sources are shallowly embedded: pure parsing functions become Lean
functions over `String`/`List Char`, the stateful components (port manager,
engine runner, worker pool) become explicit state passing or small-step
relations, and network / subprocess outcomes become explicit environment
records.  Machine integers are `Int`/`Nat` (Python integers are unbounded, so
no wrap-around modelling is needed), wall-clock times are `ℚ`, and fallible
code returns `Option`.
-/

namespace SubsCheck

/-! ## Python primitive helpers

`pyStrip` models `str.strip()` (ASCII whitespace only is enough for the
inputs of this program), `pyIntBase10` models `int(s)` / `int(s, 10)`:
surrounding whitespace is tolerated, one optional sign, then a non-empty
digit run.  (Python also allows `_` separators between digits; no input in
this development uses them.) -/

def isPySpace (c : Char) : Bool :=
  c = ' ' ∨ c = '\t' ∨ c = '\n' ∨ c = '\r' ∨ c = '\x0b' ∨ c = '\x0c'

def pyStripChars (cs : List Char) : List Char :=
  ((cs.dropWhile isPySpace).reverse.dropWhile isPySpace).reverse

def pyStrip (s : String) : String :=
  ⟨pyStripChars s.toList⟩

def digitsToNat : List Char → Nat → Nat
  | [], acc => acc
  | c :: cs, acc => digitsToNat cs (acc * 10 + (c.toNat - '0'.toNat))

/-- `int(s, 10)` on a Python `str`: `none` models a raised `ValueError`. -/
def pyIntBase10 (s : String) : Option Int :=
  let cs := pyStripChars s.toList
  let (sign, rest) : Int × List Char :=
    match cs with
    | '+' :: r => (1, r)
    | '-' :: r => (-1, r)
    | r => (1, r)
  if rest ≠ [] ∧ rest.all (·.isDigit) then
    some (sign * (digitsToNat rest 0 : Int))
  else
    none

/-! ## `base64.b64decode` (non-validating mode)

Python's decoder first requires the `str` argument to be pure ASCII, then
discards every character outside the base64 alphabet, stops at the first `=`
padding character, and requires the number of data characters matched against
the available padding: a multiple of 4 decodes fully, `4k+2` needs at least
two `=`, `4k+3` needs at least one, and `4k+1` always fails. -/

def b64Val (c : Char) : Option Nat :=
  if 'A' ≤ c ∧ c ≤ 'Z' then some (c.toNat - 'A'.toNat)
  else if 'a' ≤ c ∧ c ≤ 'z' then some (c.toNat - 'a'.toNat + 26)
  else if '0' ≤ c ∧ c ≤ '9' then some (c.toNat - '0'.toNat + 52)
  else if c = '+' then some 62
  else if c = '/' then some 63
  else none

def isB64Char (c : Char) : Bool := (b64Val c).isSome

/-- Decode a run of base64 data characters (already filtered, no padding). -/
def b64Quads : List Char → Option (List Nat)
  | [] => some []
  | a :: b :: c :: d :: rest => do
      let va ← b64Val a; let vb ← b64Val b; let vc ← b64Val c; let vd ← b64Val d
      let tail ← b64Quads rest
      pure (((va * 4 + vb / 16) :: (vb % 16 * 16 + vc / 4) :: (vc % 4 * 64 + vd) :: tail))
  | [a, b] => do
      let va ← b64Val a; let vb ← b64Val b
      pure [va * 4 + vb / 16]
  | [a, b, c] => do
      let va ← b64Val a; let vb ← b64Val b; let vc ← b64Val c
      pure [va * 4 + vb / 16, vb % 16 * 16 + vc / 4]
  | [_] => none

/-- `base64.b64decode(s)` for a Python `str` argument; `none` models any
raised exception (`UnicodeEncodeError`, `binascii.Error`). Result bytes. -/
def pyB64decode (s : String) : Option (List Nat) :=
  let cs := s.toList
  if cs.all (fun c => c.toNat < 128) then
    let kept := cs.filter (fun c => isB64Char c ∨ c = '=')
    let data := kept.takeWhile (· ≠ '=')
    let pads := (kept.drop data.length).countP (· = '=')
    if data.length % 4 = 0 then b64Quads data
    else if data.length % 4 = 2 then if pads ≥ 2 then b64Quads data else none
    else if data.length % 4 = 3 then if pads ≥ 1 then b64Quads data else none
    else none
  else none

/-! ## UTF-8 decoding

`bytes.decode('utf-8')`: strict decoding with rejection of overlong forms,
surrogates and out-of-range code points; `none` models `UnicodeDecodeError`. -/

def utf8DecodeAux : Nat → List Nat → Option (List Char)
  | 0, _ => none
  | _ + 1, [] => some []
  | fuel + 1, b :: bs =>
    if b < 0x80 then do
      let tail ← utf8DecodeAux fuel bs
      pure (Char.ofNat b :: tail)
    else if 0xC2 ≤ b ∧ b ≤ 0xDF then
      match bs with
      | b2 :: rest =>
        if 0x80 ≤ b2 ∧ b2 ≤ 0xBF then do
          let tail ← utf8DecodeAux fuel rest
          pure (Char.ofNat ((b - 0xC0) * 64 + (b2 - 0x80)) :: tail)
        else none
      | _ => none
    else if 0xE0 ≤ b ∧ b ≤ 0xEF then
      match bs with
      | b2 :: b3 :: rest =>
        let lo2 := if b = 0xE0 then 0xA0 else 0x80
        let hi2 := if b = 0xED then 0x9F else 0xBF
        if lo2 ≤ b2 ∧ b2 ≤ hi2 ∧ 0x80 ≤ b3 ∧ b3 ≤ 0xBF then do
          let tail ← utf8DecodeAux fuel rest
          pure (Char.ofNat ((b - 0xE0) * 4096 + (b2 - 0x80) * 64 + (b3 - 0x80)) :: tail)
        else none
      | _ => none
    else if 0xF0 ≤ b ∧ b ≤ 0xF4 then
      match bs with
      | b2 :: b3 :: b4 :: rest =>
        let lo2 := if b = 0xF0 then 0x90 else 0x80
        let hi2 := if b = 0xF4 then 0x8F else 0xBF
        if lo2 ≤ b2 ∧ b2 ≤ hi2 ∧ 0x80 ≤ b3 ∧ b3 ≤ 0xBF ∧ 0x80 ≤ b4 ∧ b4 ≤ 0xBF then do
          let tail ← utf8DecodeAux fuel rest
          pure (Char.ofNat ((b - 0xF0) * 262144 + (b2 - 0x80) * 4096 + (b3 - 0x80) * 64 + (b4 - 0x80)) :: tail)
        else none
      | _ => none
    else none

def utf8Decode (bs : List Nat) : Option String := do
  let cs ← utf8DecodeAux (bs.length + 1) bs
  pure ⟨cs⟩

/-- UTF-8 decoding with `errors='replace'`: an undecodable byte is consumed
and replaced by U+FFFD. -/
def utf8DecodeReplace : Nat → List Nat → List Char
  | 0, _ => []
  | _ + 1, [] => []
  | fuel + 1, b :: bs =>
    if b < 0x80 then Char.ofNat b :: utf8DecodeReplace fuel bs
    else if 0xC2 ≤ b ∧ b ≤ 0xDF then
      match bs with
      | b2 :: rest =>
        if 0x80 ≤ b2 ∧ b2 ≤ 0xBF then
          Char.ofNat ((b - 0xC0) * 64 + (b2 - 0x80)) :: utf8DecodeReplace fuel rest
        else Char.ofNat 0xFFFD :: utf8DecodeReplace fuel bs
      | [] => [Char.ofNat 0xFFFD]
    else if 0xE0 ≤ b ∧ b ≤ 0xEF then
      match bs with
      | b2 :: b3 :: rest =>
        let lo2 := if b = 0xE0 then 0xA0 else 0x80
        let hi2 := if b = 0xED then 0x9F else 0xBF
        if lo2 ≤ b2 ∧ b2 ≤ hi2 ∧ 0x80 ≤ b3 ∧ b3 ≤ 0xBF then
          Char.ofNat ((b - 0xE0) * 4096 + (b2 - 0x80) * 64 + (b3 - 0x80)) :: utf8DecodeReplace fuel rest
        else Char.ofNat 0xFFFD :: utf8DecodeReplace fuel bs
      | _ => Char.ofNat 0xFFFD :: utf8DecodeReplace fuel bs
    else if 0xF0 ≤ b ∧ b ≤ 0xF4 then
      match bs with
      | b2 :: b3 :: b4 :: rest =>
        let lo2 := if b = 0xF0 then 0x90 else 0x80
        let hi2 := if b = 0xF4 then 0x8F else 0xBF
        if lo2 ≤ b2 ∧ b2 ≤ hi2 ∧ 0x80 ≤ b3 ∧ b3 ≤ 0xBF ∧ 0x80 ≤ b4 ∧ b4 ≤ 0xBF then
          Char.ofNat ((b - 0xF0) * 262144 + (b2 - 0x80) * 4096 + (b3 - 0x80) * 64 + (b4 - 0x80)) :: utf8DecodeReplace fuel rest
        else Char.ofNat 0xFFFD :: utf8DecodeReplace fuel bs
      | _ => Char.ofNat 0xFFFD :: utf8DecodeReplace fuel bs
    else Char.ofNat 0xFFFD :: utf8DecodeReplace fuel bs

/-! ## List-of-char splitting helpers (Python `str` operations) -/

/-- `s.split(sep, 1)` restricted to a single-character separator: split at the
first occurrence, `none` when absent. -/
def splitFirst (sep : Char) : List Char → Option (List Char × List Char)
  | [] => none
  | c :: cs =>
    if c = sep then some ([], cs)
    else match splitFirst sep cs with
      | some (l, r) => some (c :: l, r)
      | none => none

/-- `s.partition(sep)` for a single-character separator:
`(before, found?, after)` with respect to the first occurrence. -/
def pyPartition (sep : Char) (cs : List Char) : List Char × Bool × List Char :=
  match splitFirst sep cs with
  | some (l, r) => (l, true, r)
  | none => (cs, false, [])

/-- `s.rpartition(sep)`: `(before, found?, after)` with respect to the last
occurrence. -/
def pyRPartition (sep : Char) (cs : List Char) : List Char × Bool × List Char :=
  match splitFirst sep cs.reverse with
  | some (l, r) => (r.reverse, true, l.reverse)
  | none => ([], false, cs)

/-- `s.rsplit(sep, 1)` for a single-character separator. -/
def pyRSplit1 (sep : Char) (cs : List Char) : Option (List Char × List Char) :=
  match pyRPartition sep cs with
  | (l, true, r) => some (l, r)
  | (_, false, _) => none

/-- `s.split(sep, maxsplit)` for a single-character separator. -/
def pySplitMax (sep : Char) : Nat → List Char → List (List Char)
  | 0, cs => [cs]
  | n + 1, cs =>
    match splitFirst sep cs with
    | some (l, r) => l :: pySplitMax sep n r
    | none => [cs]

/-- `s.split(sep)` (unbounded) for a single-character separator; a string of
length `n` contains at most `n` separators, so `n` splits suffice. -/
def pySplitAll (sep : Char) (cs : List Char) : List (List Char) :=
  pySplitMax sep cs.length cs

def pyContains (sub : Char) (cs : List Char) : Bool := cs.contains sub

def pyLower (cs : List Char) : List Char := cs.map Char.toLower

/-! ## `urllib.parse.urlsplit` and friends

Modelled on CPython's `urllib/parse.py`: the scheme is split off when the
text before the first `:` starts with an ASCII letter and consists of scheme
characters; a leading `//` introduces the netloc, which extends to the first
of `/`, `?`, `#`; the fragment is split at the first `#` and the query at the
first `?` of what remains. -/

structure UrlSplit where
  scheme : List Char
  netloc : List Char
  path : List Char
  query : List Char
  fragment : List Char

def isSchemeChar (c : Char) : Bool :=
  c.isAlpha ∨ c.isDigit ∨ c = '+' ∨ c = '-' ∨ c = '.'

def takeNetloc (cs : List Char) : List Char × List Char :=
  let nl := cs.takeWhile (fun c => ¬ (c = '/' ∨ c = '?' ∨ c = '#'))
  (nl, cs.drop nl.length)

def pyUrlsplit (url : String) : UrlSplit :=
  let cs := url.toList
  let (scheme, rest) :=
    match splitFirst ':' cs with
    | some (before, after) =>
      if before ≠ [] ∧ (before.headD ' ').isAlpha ∧ (before.headD ' ').toNat < 128 ∧
          before.all isSchemeChar then
        (pyLower before, after)
      else ([], cs)
    | none => ([], cs)
  let (netloc, rest) :=
    match rest with
    | '/' :: '/' :: tail => takeNetloc tail
    | _ => ([], rest)
  let (rest, fragment) :=
    match splitFirst '#' rest with
    | some (l, r) => (l, r)
    | none => (rest, [])
  let (path, query) :=
    match splitFirst '?' rest with
    | some (l, r) => (l, r)
    | none => (rest, [])
  ⟨scheme, netloc, path, query, fragment⟩

/-- `SplitResult._userinfo`-based `username` property: `none` when the netloc
has no `@`; otherwise the userinfo up to the first `:` (possibly empty). -/
def urlUsername (u : UrlSplit) : Option (List Char) :=
  match pyRPartition '@' u.netloc with
  | (userinfo, true, _) => some (pyPartition ':' userinfo).1
  | (_, false, _) => none

/-- `SplitResult._hostinfo`: the raw `(hostname, port?)` pair before the
`hostname`/`port` property post-processing. -/
def urlHostinfo (u : UrlSplit) : List Char × Option (List Char) :=
  let hostinfo := (pyRPartition '@' u.netloc).2.2
  let (_, haveBr, bracketed) := pyPartition '[' hostinfo
  if haveBr then
    let (hostname, _, portPart) := pyPartition ']' bracketed
    let port := (pyPartition ':' portPart).2.2
    (hostname, if port = [] then none else some port)
  else
    let (hostname, _, port) := pyPartition ':' hostinfo
    (hostname, if port = [] then none else some port)

/-- The `hostname` property: lowercased, `None` when empty. -/
def urlHostname (u : UrlSplit) : Option (List Char) :=
  let h := (urlHostinfo u).1
  if h = [] then none else some (pyLower h)

/-- The `port` property: `Except.error` models the `ValueError` raised on a
non-integer or out-of-range port. -/
def urlPort (u : UrlSplit) : Except Unit (Option Int) :=
  match (urlHostinfo u).2 with
  | none => .ok none
  | some p =>
    match pyIntBase10 ⟨p⟩ with
    | none => .error ()
    | some v => if 0 ≤ v ∧ v ≤ 65535 then .ok (some v) else .error ()

/-! ## Percent decoding and `parse_qs` -/

def hexVal (c : Char) : Option Nat :=
  if '0' ≤ c ∧ c ≤ '9' then some (c.toNat - '0'.toNat)
  else if 'a' ≤ c ∧ c ≤ 'f' then some (c.toNat - 'a'.toNat + 10)
  else if 'A' ≤ c ∧ c ≤ 'F' then some (c.toNat - 'A'.toNat + 10)
  else none

/-- Encode one char back to UTF-8 bytes (for the literal parts of a
percent-encoded string). -/
def utf8Encode (c : Char) : List Nat :=
  let n := c.toNat
  if n < 0x80 then [n]
  else if n < 0x800 then [0xC0 + n / 64, 0x80 + n % 64]
  else if n < 0x10000 then [0xE0 + n / 4096, 0x80 + n / 64 % 64, 0x80 + n % 64]
  else [0xF0 + n / 262144, 0x80 + n / 4096 % 64, 0x80 + n / 64 % 64, 0x80 + n % 64]

def unquoteBytes : Nat → List Char → List Nat
  | 0, _ => []
  | _ + 1, [] => []
  | fuel + 1, cs =>
    match cs with
    | '%' :: h1 :: h2 :: rest =>
      match hexVal h1, hexVal h2 with
      | some v1, some v2 => (v1 * 16 + v2) :: unquoteBytes fuel rest
      | _, _ => utf8Encode '%' ++ unquoteBytes fuel (h1 :: h2 :: rest)
    | c :: rest => utf8Encode c ++ unquoteBytes fuel rest
    | [] => []

/-- `urllib.parse.unquote`: percent sequences become bytes, the byte stream is
decoded as UTF-8 with `errors='replace'`. -/
def pyUnquote (cs : List Char) : List Char :=
  let bs := unquoteBytes (cs.length + 1) cs
  utf8DecodeReplace (bs.length + 1) bs

/-- `unquote_plus`: `+` means space. -/
def pyUnquotePlus (cs : List Char) : List Char :=
  pyUnquote (cs.map (fun c => if c = '+' then ' ' else c))

/-- `parse_qsl(query)` with default arguments: pairs split on `&`, empty
chunks skipped, chunks without `=` skipped, empty values skipped
(`keep_blank_values=False`). -/
def pyParseQsl (query : List Char) : List (List Char × List Char) :=
  (pySplitAll '&' query).filterMap (fun nv =>
    if nv = [] then none
    else match splitFirst '=' nv with
      | none => none
      | some (n, v) =>
        if v = [] then none
        else some (pyUnquotePlus n, pyUnquotePlus v))

/-- `parse_qs(query).get(key)`: the list of values for `key`, `none` when the
key is absent (an empty list never occurs). -/
def qsGet (query : List Char) (key : String) : Option (List Char) :=
  match (pyParseQsl query).filter (fun p => p.1 = key.toList) with
  | [] => none
  | p :: _ => some p.2

/-! ## `json.loads` (the subset needed by the vmess body)

Objects, arrays, strings with the single-character escapes, integers,
booleans and null.  Floats and `\uXXXX` escapes are not modelled (no claim
depends on a vmess body using them); parsing such a body returns `none`. -/

inductive JVal where
  | str (s : String)
  | int (n : Int)
  | bool (b : Bool)
  | null
  | obj (kvs : List (String × JVal))
  | arr (vs : List JVal)

def jsonWs (cs : List Char) : List Char :=
  cs.dropWhile (fun c => c = ' ' ∨ c = '\t' ∨ c = '\n' ∨ c = '\r')

def jsonString : Nat → List Char → Option (List Char × List Char)
  | 0, _ => none
  | fuel + 1, cs =>
    match cs with
    | [] => none
    | '"' :: rest => some ([], rest)
    | '\\' :: e :: rest =>
      let esc : Option Char :=
        if e = '"' then some '"' else if e = '\\' then some '\\'
        else if e = '/' then some '/' else if e = 'b' then some (Char.ofNat 8)
        else if e = 'f' then some (Char.ofNat 12) else if e = 'n' then some '\n'
        else if e = 'r' then some '\r' else if e = 't' then some '\t'
        else none
      match esc with
      | some c => (jsonString fuel rest).map (fun p => (c :: p.1, p.2))
      | none => none
    | c :: rest =>
      if c.toNat < 0x20 then none
      else (jsonString fuel rest).map (fun p => (c :: p.1, p.2))

def jsonInt (cs : List Char) : Option (Int × List Char) :=
  let (neg, rest) : Bool × List Char :=
    match cs with
    | '-' :: r => (true, r)
    | r => (false, r)
  let digits := rest.takeWhile Char.isDigit
  let rest2 := rest.drop digits.length
  if digits = [] then none
  else if (match rest2 with
           | '.' :: _ => true | 'e' :: _ => true | 'E' :: _ => true
           | _ => false) then none
  else if digits.length > 1 ∧ digits.headD '0' = '0' then none
  else some ((if neg then -1 else 1) * (digitsToNat digits 0 : Int), rest2)

mutual

def jsonValue : Nat → List Char → Option (JVal × List Char)
  | 0, _ => none
  | fuel + 1, cs =>
    match jsonWs cs with
    | '"' :: rest => (jsonString (rest.length + 1) rest).map (fun p => (JVal.str ⟨p.1⟩, p.2))
    | '{' :: rest =>
      (match jsonWs rest with
       | '}' :: r2 => some (JVal.obj [], r2)
       | _ => (jsonMembers fuel rest).map (fun p => (JVal.obj p.1, p.2)))
    | '[' :: rest =>
      (match jsonWs rest with
       | ']' :: r2 => some (JVal.arr [], r2)
       | _ => (jsonElems fuel rest).map (fun p => (JVal.arr p.1, p.2)))
    | 't' :: 'r' :: 'u' :: 'e' :: r => some (JVal.bool true, r)
    | 'f' :: 'a' :: 'l' :: 's' :: 'e' :: r => some (JVal.bool false, r)
    | 'n' :: 'u' :: 'l' :: 'l' :: r => some (JVal.null, r)
    | other => (jsonInt other).map (fun p => (JVal.int p.1, p.2))

def jsonMembers : Nat → List Char → Option (List (String × JVal) × List Char)
  | 0, _ => none
  | fuel + 1, cs =>
    match jsonWs cs with
    | '"' :: rest => do
      let (key, r1) ← jsonString (rest.length + 1) rest
      match jsonWs r1 with
      | ':' :: r2 => do
        let (v, r3) ← jsonValue fuel r2
        match jsonWs r3 with
        | ',' :: r4 => (jsonMembers fuel r4).map (fun p => ((⟨key⟩, v) :: p.1, p.2))
        | '}' :: r4 => some ([(⟨key⟩, v)], r4)
        | _ => none
      | _ => none
    | _ => none

def jsonElems : Nat → List Char → Option (List JVal × List Char)
  | 0, _ => none
  | fuel + 1, cs => do
    let (v, r1) ← jsonValue fuel cs
    match jsonWs r1 with
    | ',' :: r2 => (jsonElems fuel r2).map (fun p => (v :: p.1, p.2))
    | ']' :: r2 => some ([v], r2)
    | _ => none

end

def jsonLoads (s : String) : Option JVal := do
  let (v, rest) ← jsonValue (s.toList.length + 1) s.toList
  if jsonWs rest = [] then pure v else none

/-- Python `dict` lookup on the parsed object: later duplicate keys win. -/
def jsonGet (kvs : List (String × JVal)) (k : String) : Option JVal :=
  (kvs.reverse.find? (fun p => p.1 == k)).map (·.2)

def pyStrOfJVal : JVal → Option String
  | .str s => some s
  | _ => none

/-- Python `int(x)` on a JSON value; `none` models a raised
`ValueError`/`TypeError`. -/
def pyIntOfJVal : JVal → Option Int
  | .int n => some n
  | .bool b => some (if b then 1 else 0)
  | .str s => pyIntBase10 s
  | _ => none

def jvalIsStr (v : JVal) (s : String) : Bool :=
  match v with
  | .str t => t == s
  | _ => false

/-! ## The Node record (`parsers/base_parser.py`)

The parser functions return Python dicts; the key set depends on the scheme,
so the record carries every possible key as an `Option`.  `server` is an
`Option` because the trojan parser stores `parsed_url.hostname`, which can be
`None`.  Fields that never arise for a scheme stay `none`. -/

structure Node where
  name : Option String := none
  type : String
  server : Option String := none
  port : Int
  uuid : Option String := none
  method : Option String := none
  password : Option String := none
  alterId : Option Int := none
  security : Option String := none
  network : Option String := none
  tls : Option Bool := none
  sni : Option String := none
  host : Option String := none
  path : Option String := none
  protocol : Option String := none
  obfs : Option String := none
  pbk : Option String := none
  sid : Option String := none
  fp : Option String := none
  flow : Option String := none
deriving Repr, DecidableEq

/-- `_parse_vmess_url`: base64-decode the body, parse it as JSON, build the
node.  Any exception (bad base64, bad UTF-8, bad JSON, missing `add`/`port`/
`id`, non-integer port …) yields `None`.  Non-string values for the purely
descriptive fields (`add`, `ps`, `scy`, `net`, `sni`, `host`) are not
modelled: no claim depends on them. -/
def parseVmessUrl (url : String) : Option Node :=
  match pyB64decode (url.drop 8) with
  | none => none
  | some bytes =>
  match utf8Decode bytes with
  | none => none
  | some decoded =>
  match jsonLoads decoded with
  | some (JVal.obj kvs) =>
    (match jsonGet kvs "add" with
     | none => none
     | some addJ =>
     match pyStrOfJVal addJ with
     | none => none
     | some add =>
     match (jsonGet kvs "port").bind pyIntOfJVal with
     | none => none
     | some port =>
     match (jsonGet kvs "id").bind pyStrOfJVal with
     | none => none
     | some uuid =>
     match pyIntOfJVal ((jsonGet kvs "aid").getD (JVal.int 0)) with
     | none => none
     | some alterId =>
     match pyStrOfJVal ((jsonGet kvs "scy").getD (JVal.str "auto")) with
     | none => none
     | some security =>
     match pyStrOfJVal ((jsonGet kvs "net").getD (JVal.str "tcp")) with
     | none => none
     | some network =>
     match pyStrOfJVal ((jsonGet kvs "sni").getD ((jsonGet kvs "host").getD addJ)) with
     | none => none
     | some sni =>
     match pyStrOfJVal ((jsonGet kvs "ps").getD ((jsonGet kvs "add").getD (JVal.str "VMess"))) with
     | none => none
     | some name =>
       some { name := some name, type := "vmess", server := some add,
              port := port, uuid := some uuid, alterId := some alterId,
              security := some security, network := some network,
              tls := some (jvalIsStr ((jsonGet kvs "tls").getD (JVal.str "")) "tls"),
              sni := some sni })
  | _ => none

/-- `_parse_vless_url`. -/
def parseVlessUrl (url : String) : Option Node :=
  let u := pyUrlsplit url
  match urlUsername u, urlHostname u with
  | some uuid, some server =>
    if uuid = [] then none
    else
      match urlPort u with
      | .error _ => none
      | .ok none => none
      | .ok (some port) =>
        if port ≤ 0 ∨ port > 65535 then none
        else
          let q := u.query
          let name : List Char :=
            match u.fragment with
            | [] => server ++ ':' :: (toString port).toList
            | f => pyUnquote f
          some { name := some ⟨name⟩, type := "vless", server := some ⟨server⟩,
                 port := port, uuid := some ⟨uuid⟩,
                 security := some ⟨(qsGet q "security").getD "none".toList⟩,
                 network := some ⟨(qsGet q "type").getD "tcp".toList⟩,
                 sni := some ⟨(qsGet q "sni").getD server⟩,
                 host := some ⟨(qsGet q "host").getD server⟩,
                 path := some ⟨(qsGet q "path").getD "/".toList⟩ }
  | _, _ => none

/-- `_parse_trojan_url`: `port_str = str(parsed_url.port)` followed by
`int(port_str)`; a URL without a port makes `int("None")` raise, an
out-of-range or non-numeric port makes the `.port` property raise; both are
caught and the node is skipped.  There is no truthiness check on the
password or the server. -/
def parseTrojanUrl (url : String) : Option Node :=
  let u := pyUrlsplit url
  match urlPort u with
  | .error _ => none
  | .ok portOpt =>
    let portStr : String :=
      match portOpt with
      | some p => toString p
      | none => "None"
    match pyIntBase10 portStr with
    | none => none
    | some port =>
      let password := urlUsername u
      let server := urlHostname u
      let name : Option String :=
        match u.fragment with
        | [] => server.map (fun s => (⟨s⟩ : String))
        | f => some ⟨pyUnquote f⟩
      let sni : Option String :=
        match qsGet u.query "sni" with
        | some v => some ⟨v⟩
        | none => server.map (fun s => (⟨s⟩ : String))
      some { name := name, type := "trojan", server := server.map (fun s => (⟨s⟩ : String)),
             port := port, password := password.map (fun s => (⟨s⟩ : String)),
             sni := sni }

/-- The host/port split of `_parse_ss_server_part`: IPv6 brackets
(`[host]:port`, rejecting a missing `]` or a port part that does not start
with `:`) or `rsplit(':', 1)`. -/
def ssSplitHostPort (serverPart : List Char) : Option (List Char × List Char) :=
  match serverPart with
  | '[' :: rest =>
    match splitFirst ']' rest with
    | none => none
    | some (server, portPart) =>
      match portPart with
      | ':' :: p => some (server, p)
      | _ => none
  | _ => pyRSplit1 ':' serverPart

/-- `_parse_ss_server_part`: split host and port, then the port-range check
`0 < port ≤ 65535`. -/
def parseSsServerPart (serverPart : List Char) (method password : List Char)
    (name : Option (List Char)) : Option Node :=
  match ssSplitHostPort serverPart with
  | none => none
  | some (server, portStr) =>
    match pyIntBase10 ⟨portStr⟩ with
    | none => none
    | some port =>
      if port ≤ 0 ∨ port > 65535 then none
      else
        some { name := some ⟨name.getD (server ++ ':' :: (toString port).toList)⟩,
               type := "shadowsocks", server := some ⟨server⟩, port := port,
               method := some ⟨method⟩, password := some ⟨password⟩ }

/-- `_parse_ss_standard_format`: `method:password@server:port`. -/
def parseSsStandardFormat (content : List Char) (name : Option (List Char)) :
    Option Node :=
  match splitFirst '@' content with
  | none => none
  | some (authPart, serverPart) =>
    match splitFirst ':' authPart with
    | none => none
    | some (method, password) =>
      parseSsServerPart serverPart method password name

/-- Shape (i) of `_parse_shadowsocks_url`: the whole body is base64. -/
def parseSsWay1 (encodedPart : List Char) (name : Option (List Char)) :
    Option Node :=
  match pyB64decode ⟨encodedPart⟩ with
  | none => none
  | some bytes =>
    match utf8Decode bytes with
    | none => none
    | some decoded => parseSsStandardFormat decoded.toList name

/-- Shape (iii) of `_parse_shadowsocks_url`: base64 userinfo before `@`. -/
def parseSsWay3 (encodedPart : List Char) (name : Option (List Char)) :
    Option Node :=
  match splitFirst '@' encodedPart with
  | none => none
  | some (authPart, serverPart) =>
    match pyB64decode ⟨authPart⟩ with
    | none => none
    | some bytes =>
      match utf8Decode bytes with
      | none => none
      | some decodedAuth =>
        if pyContains ':' decodedAuth.toList then
          match splitFirst ':' decodedAuth.toList with
          | none => none
          | some (method, password) =>
            parseSsServerPart serverPart method password name
        else none

/-- The three shapes of `_parse_shadowsocks_url`, tried in order:
full-base64, plaintext, base64-userinfo. -/
def parseSsBody (encodedPart : List Char) (name : Option (List Char)) :
    Option Node :=
  match parseSsWay1 encodedPart name with
  | some n => some n
  | none =>
    match parseSsStandardFormat encodedPart name with
    | some n => some n
    | none => parseSsWay3 encodedPart name

/-- `_parse_shadowsocks_url`: strip the fragment, then try the three shapes
in order. -/
def parseShadowsocksUrl (url : String) : Option Node :=
  let afterScheme := url.toList.drop 5
  match splitFirst '#' afterScheme with
  | some (e, frag) => parseSsBody e (some (pyUnquote frag))
  | none => parseSsBody afterScheme none

/-- The `remarks` name lookup of `_parse_shadowsocksr_url`; any failure
leaves the name `None` (the node itself is unaffected). -/
def ssrRemarksName (params : Option (List Char)) : Option (List Char) := do
  let ps ← params
  let remarks ← qsGet ps "remarks"
  let rBytes ← pyB64decode ⟨remarks⟩
  let r ← utf8Decode rBytes
  pure r.toList

/-- `_parse_shadowsocksr_url`: decode the whole body, split
`server:port:protocol:method:obfs:password_b64`, decode the password.  The
port is `int(port_str)` with **no** range check, and the node type is
`'shadowsocksr'`. -/
def parseShadowsocksrUrl (url : String) : Option Node :=
  match pyB64decode (url.drop 6) with
  | none => none
  | some bytes =>
  match utf8Decode bytes with
  | none => none
  | some decoded =>
  let (mainPart, params) : List Char × Option (List Char) :=
    match splitFirst '?' decoded.toList with
    | some (m, p) => (m, some p)
    | none => (decoded.toList, none)
  match pySplitMax ':' 5 mainPart with
  | [server, portStr, protocol, method, obfs, passwordB64] =>
    (match pyIntBase10 ⟨portStr⟩ with
     | none => none
     | some port =>
     match pyB64decode ⟨passwordB64⟩ with
     | none => none
     | some pwBytes =>
     match utf8Decode pwBytes with
     | none => none
     | some password =>
       some { name := some ⟨(ssrRemarksName params).getD
                (server ++ ':' :: (toString port).toList)⟩,
              type := "shadowsocksr", server := some ⟨server⟩, port := port,
              protocol := some ⟨protocol⟩, method := some ⟨method⟩,
              obfs := some ⟨obfs⟩, password := some password })
  | _ => none

/-- Python `str.startswith`. -/
def pyStartswith (s : String) (p : String) : Bool :=
  p.toList.isPrefixOf s.toList

/-- `parse_node_url`: strip, then dispatch on the scheme prefix.  Hysteria,
TUIC and unrecognised schemes are logged and skipped (`None`). -/
def parse_node_url (url : String) : Option Node :=
  let url := pyStrip url
  if url.toList = [] then none
  else if pyStartswith url "vmess://" then parseVmessUrl url
  else if pyStartswith url "vless://" then parseVlessUrl url
  else if pyStartswith url "trojan://" then parseTrojanUrl url
  else if pyStartswith url "ss://" then parseShadowsocksUrl url
  else if pyStartswith url "ssr://" then parseShadowsocksrUrl url
  else none

/-! ## Deduplication (`GoSubsChecker.run_speed_test`, `main.py`)

The pipeline deduplicates with `unique_nodes = list(set(all_nodes))` over the
raw subscription-line *strings*.  Python's `set` fixes the membership of the
result — each distinct string exactly once — but the iteration order of
`list(...)` is unspecified (string hashing is even randomized per process),
so the step is embedded as the relation between the input and every list the
call can produce. -/

def pyListSet (xs ys : List String) : Prop :=
  ys.Nodup ∧ (∀ s ∈ ys, s ∈ xs) ∧ (∀ s ∈ xs, s ∈ ys)

instance (xs ys : List String) : Decidable (pyListSet xs ys) := by
  unfold pyListSet; infer_instance

/-- The deduplication key named by the spec. -/
def dedupKey (n : Node) : Option String × Int × String :=
  (n.server, n.port, n.type)

/-- "No two Nodes share the `(server, port, type)` triple". -/
def keysNodup (ns : List Node) : Prop :=
  (ns.map dedupKey).Nodup

instance (ns : List Node) : Decidable (keysNodup ns) := by
  unfold keysNodup; infer_instance

/-! ## `NodeTester.test_single_node` (`testers/node_tester.py`)

The network and subprocess outcomes of one test attempt are supplied as an
explicit environment: the latencies the three probe helpers would return,
the IP-purity answer, the two SOCKS5 pre-checks and the download speed.
`startupError` is the message of an exception raised by `_allocate_port` or
by `singboxRunner.__aenter__` (the `except Exception` handler stores
`str(e)`). -/

structure TestEnv where
  startupError : Option String
  direct : Option ℚ
  socks5 : Option ℚ
  http : Option ℚ
  ipPurity : Option String
  socksOk : Bool
  httpFwdOk : Bool
  downloadSpeed : Option ℚ
deriving Repr, DecidableEq

structure TestResult where
  name : Option String
  server : Option String
  port : Int
  type : String
  status : String
  error : Option String
  httpLatency : Option ℚ
  downloadSpeed : Option ℚ
  ipPurity : Option String
deriving Repr, DecidableEq

/-- `test_single_node`: the result starts as
`{status: 'failed', error: None, …}`; the direct probe runs first, the
SOCKS5 probe runs **only if the direct probe succeeded**, the HTTP fallback
runs **only if the direct probe failed** (then the SOCKS5 latency is still
`None`), and the chosen latency is the first of
`direct`/`socks5`/`http` in that order.  A connectivity success always sets
`status='success'`; a failed speed test then additionally sets
`error='Speed test failed but connectivity OK'`. -/
def test_single_node (node : Node) (env : TestEnv) : TestResult :=
  let base : TestResult :=
    { name := node.name, server := node.server, port := node.port,
      type := node.type, status := "failed", error := none,
      httpLatency := none, downloadSpeed := none, ipPurity := none }
  match env.startupError with
  | some msg => { base with error := some msg }
  | none =>
    let direct := env.direct
    let socks5 := if direct.isSome then env.socks5 else none
    let http := if direct = none ∧ socks5 = none then env.http else none
    let best :=
      match direct with
      | some l => some l
      | none =>
        match socks5 with
        | some l => some l
        | none => http
    match best with
    | none =>
      { base with error := some "All connectivity tests failed" }
    | some lat =>
      let download :=
        if env.socksOk then (if env.httpFwdOk then env.downloadSpeed else none)
        else none
      { base with
        httpLatency := some lat,
        ipPurity := env.ipPurity,
        downloadSpeed := download,
        status := "success",
        error := if download = none then some "Speed test failed but connectivity OK"
                 else none }

/-! ## `NodeTester._test_connectivity`

Each configured latency URL yields either `none` (timeout / exception) or a
`(status, elapsed_ms)` pair.  The loop appends `elapsed` to `latencies` only
for statuses in `[200, 204, 301, 302]`.  After the loop the function falls
off its end: the block that averages `latencies` and returns it is located
in `_test_stability` (lines 358–364), *after* that function's `return`
statements and referring to a variable that does not exist there, so it is
unreachable — `_test_connectivity` returns `None` on every path. -/

def connectivityRecorded (st : Nat) : Bool :=
  st = 200 ∨ st = 204 ∨ st = 301 ∨ st = 302

def connectivityLoop : List (Option (Nat × ℚ)) → List ℚ → List ℚ
  | [], acc => acc
  | none :: rs, acc => connectivityLoop rs acc
  | some (st, elapsed) :: rs, acc =>
    if connectivityRecorded st then connectivityLoop rs (acc ++ [elapsed])
    else connectivityLoop rs acc

def test_connectivity (responses : List (Option (Nat × ℚ))) : Option ℚ :=
  let _latencies := connectivityLoop responses []
  none

/-! ## `singboxRunner` lifecycle (`core/singbox_runner.py`)

`__aenter__` writes the temp config file as its very first step
(`NamedTemporaryFile(delete=False)` + `json.dump`), then locates the binary,
spawns the process and waits; each failure raises, and when `__aenter__`
raises, Python never calls `__aexit__`.  When `__aenter__` returns, the
`async with` guarantees that `__aexit__` runs — on success, on an exception
in the body, and on cancellation — and `__aexit__` unconditionally unlinks
the config file after terminating the process. -/

inductive StartupOutcome where
  | ok            -- process spawned and still alive after the readiness wait
  | binaryMissing -- `RuntimeError: sing-box可执行文件未找到`
  | spawnFailure  -- `RuntimeError: sing-box进程启动失败`
  | earlyExit     -- `RuntimeError: sing-box启动失败` (exited during the wait)
deriving Repr, DecidableEq

structure RunnerEnv where
  startup : StartupOutcome
  bodyRaises : Bool  -- the test body inside the `async with` raises
deriving Repr, DecidableEq

structure FsState where
  tempFileExists : Bool
deriving Repr, DecidableEq

/-- `__aenter__`: returns the post-state and the raised exception, if any. -/
def runnerAenter (env : RunnerEnv) (fs : FsState) : FsState × Option String :=
  let fs := { fs with tempFileExists := true }
  match env.startup with
  | .binaryMissing => (fs, some "sing-box executable not found")
  | .spawnFailure => (fs, some "sing-box process failed to start")
  | .earlyExit => (fs, some "sing-box startup failed")
  | .ok => (fs, none)

/-- `__aexit__`: terminate / kill the process, close the pipes, sleep, then
`os.unlink(self._config_file_path)`. -/
def runnerAexit (fs : FsState) : FsState :=
  { fs with tempFileExists := false }

/-- One attempt through `async with singboxRunner(node, port)`: if
`__aenter__` raises, the exception propagates to the caller with no cleanup;
otherwise `__aexit__` runs whether or not the body raised. -/
def runAttempt (env : RunnerEnv) (fs0 : FsState) : FsState :=
  let (fs1, err) := runnerAenter env fs0
  match err with
  | some _ => fs1
  | none => runnerAexit fs1

/-! ## `singboxRunner._generate_singbox_config`

The node dicts produced by `parse_node_url` carry only scalar values, so the
`isinstance(x, list)` coercions in the source are identities here.  The
`headers` key is never set by `parse_node_url`, so `node.get('headers', {})`
is always `{}` and the `headers` entry of a transport is the empty dict; it
is omitted from the embedding.  `none` for the whole config models a raised
`KeyError` (missing `uuid` / `password` / `method`). -/

structure TlsConfig where
  serverName : String
  insecure : Bool
  realityPublicKey : Option String := none
  realityShortId : Option String := none
  utlsFingerprint : Option String := none
deriving Repr, DecidableEq

structure Transport where
  ttype : String
  path : Option String := none
  serviceName : Option String := none
deriving Repr, DecidableEq

structure Outbound where
  otype : String
  server : Option String := none
  serverPort : Option Int := none
  uuid : Option String := none
  alterId : Option Int := none
  security : Option String := none
  method : Option String := none
  password : Option String := none
  transport : Option Transport := none
  tls : Option TlsConfig := none
  flow : Option String := none
deriving Repr, DecidableEq

structure SingboxConfig where
  logLevel : String
  inboundType : String
  inboundListen : String
  inboundListenPort : Int
  sniff : Bool
  outbounds : List Outbound
deriving Repr, DecidableEq

/-- The vless outbound.  Note the source's indentation: the whole
security/TLS/REALITY block sits *inside* the
`elif network in ['xhttp', 'httpupgrade', 'splithttp']` branch, so it only
runs for those three (otherwise unsupported) network values.  A missing
`uuid` key raises `KeyError`, modelled as `none` for the whole config. -/
def vlessOutbound (node : Node) : Option Outbound :=
  match node.uuid with
  | none => none
  | some uuid =>
    let network := node.network.getD "tcp"
    let base : Outbound :=
      { otype := "vless", server := node.server, serverPort := some node.port,
        uuid := some uuid }
    if network = "ws" ∨ network = "websocket" then
      some { base with transport := some ⟨"ws", some (node.path.getD "/"), none⟩ }
    else if network = "grpc" then
      some { base with transport := some ⟨"grpc", none, some ""⟩ }
    else if network = "h2" ∨ network = "http" then
      some { base with transport := some ⟨"http", some (node.path.getD "/"), none⟩ }
    else if network = "xhttp" ∨ network = "httpupgrade" ∨ network = "splithttp" then
      let security := node.security.getD "none"
      if security = "reality" then
        let sni := node.sni.getD (node.server.getD "")
        let fp := node.fp.getD "chrome"
        let withTls :=
          { base with
            tls := some { serverName := sni, insecure := false,
                          realityPublicKey := some (node.pbk.getD ""),
                          realityShortId := some (node.sid.getD ""),
                          utlsFingerprint := some fp } }
        let flow := node.flow.getD ""
        if flow ≠ "" then some { withTls with flow := some flow }
        else some withTls
      else if security = "tls" ∨ node.tls.getD false then
        let sni := node.sni.getD (node.server.getD "")
        some { base with tls := some { serverName := sni, insecure := true } }
      else
        some base
    else
      some base

/-- The vmess outbound. -/
def vmessOutbound (node : Node) : Option Outbound :=
  match node.uuid with
  | none => none
  | some uuid =>
    let network := node.network.getD "tcp"
    let base : Outbound :=
      { otype := "vmess", server := node.server, serverPort := some node.port,
        uuid := some uuid, alterId := some (node.alterId.getD 0),
        security := some (node.security.getD "auto") }
    let withTransport :=
      if network = "ws" ∨ network = "websocket" then
        { base with transport := some ⟨"ws", some (node.path.getD "/"), none⟩ }
      else if network = "grpc" then
        { base with transport := some ⟨"grpc", none, some ""⟩ }
      else if network = "h2" ∨ network = "http" then
        { base with transport := some ⟨"http", some (node.path.getD "/"), none⟩ }
      else
        base
    if node.tls.getD false then
      some { withTransport with
             tls := some { serverName := node.sni.getD (node.server.getD ""),
                           insecure := true } }
    else
      some withTransport

/-- The trojan outbound: TLS is always enabled. -/
def trojanOutbound (node : Node) : Option Outbound :=
  match node.password with
  | none => none
  | some password =>
    some { otype := "trojan", server := node.server, serverPort := some node.port,
           password := some password,
           tls := some { serverName := node.sni.getD (node.server.getD ""),
                         insecure := true } }

/-- The shadowsocks outbound. -/
def shadowsocksOutbound (node : Node) : Option Outbound :=
  match node.method, node.password with
  | some method, some password =>
    some { otype := "shadowsocks", server := node.server,
           serverPort := some node.port, method := some method,
           password := some password }
  | _, _ => none

def generateSingboxConfig (node : Node) (socksPort : Int) : Option SingboxConfig :=
  let outbound : Option Outbound :=
    if node.type = "vless" then vlessOutbound node
    else if node.type = "vmess" then vmessOutbound node
    else if node.type = "trojan" then trojanOutbound node
    else if node.type = "shadowsocks" then shadowsocksOutbound node
    else some { otype := node.type }
  outbound.map (fun ob =>
    { logLevel := "error", inboundType := "socks", inboundListen := "127.0.0.1",
      inboundListenPort := socksPort, sniff := true, outbounds := [ob] })

/-! ## `PortManager` (`utils/resource_manager.py`)

State-passing embedding: `allocated_ports` and `released_ports` are
association lists, the `time.time()` clock is passed explicitly (embedded
as `ℤ`: the claims about the port manager are purely order-theoretic, and
the proofs below use only ordered-ring reasoning), and the OS-level
`_is_port_in_use` probe is an oracle `Int → Bool`. -/

structure PortLease where
  nodeName : String
  allocatedAt : ℤ
deriving Repr, DecidableEq

structure PortManagerState where
  basePort : Int
  allocated : List (Int × PortLease)
  released : List (Int × ℤ)
  recycleDelay : ℤ
deriving Repr, DecidableEq

def lookupPort {α : Type} : List (Int × α) → Int → Option α
  | [], _ => none
  | (q, v) :: rest, p => if q = p then some v else lookupPort rest p

def removePort {α : Type} (l : List (Int × α)) (p : Int) : List (Int × α) :=
  l.filter (fun q => ¬ q.1 = p)

/-- Step 1 of `allocate_port`: drop released entries older than
`recycle_delay` (`current_time - release_time > self.recycle_delay`). -/
def pruneReleased (now : ℤ) (st : PortManagerState) : PortManagerState :=
  { st with released := st.released.filter (fun e => ¬ now - e.2 > st.recycleDelay) }

/-- The `while True` scan: check the current port; on failure move to the
next and raise (`none`) once the port exceeds `base_port + 1000`. -/
def scanPort (elig : Int → Bool) (limit : Int) : Nat → Int → Option Int
  | 0, _ => none
  | fuel + 1, p =>
    if elig p then some p
    else if p + 1 > limit then none
    else scanPort elig limit fuel (p + 1)

def portEligible (st : PortManagerState) (osInUse : Int → Bool) (p : Int) : Bool :=
  lookupPort st.allocated p = none ∧ lookupPort st.released p = none ∧ ¬ osInUse p

/-- `allocate_port`: prune, scan upward from `base_port`, insert the lease.
`none` models the `RuntimeError` raised after a 1000-port scan. -/
def allocate_port (now : ℤ) (nodeName : String) (osInUse : Int → Bool)
    (st : PortManagerState) : Option (Int × PortManagerState) :=
  match scanPort (portEligible (pruneReleased now st) osInUse)
      ((pruneReleased now st).basePort + 1000) 1001
      (pruneReleased now st).basePort with
  | none => none
  | some p =>
    some (p, { pruneReleased now st with
               allocated := (p, ⟨nodeName, now⟩) ::
                 (pruneReleased now st).allocated })

/-- `release_port`: move the port from `allocated` to `released` stamped with
the current time; a no-op when the port is not allocated. -/
def release_port (now : ℤ) (p : Int) (st : PortManagerState) : PortManagerState :=
  match lookupPort st.allocated p with
  | none => st
  | some _ =>
    { st with allocated := removePort st.allocated p,
              released := (p, now) :: removePort st.released p }

/-! ## `WorkerPool` (`utils/concurrent_tester.py`)

Small-step semantics.  A task is its predetermined test outcome (`true` =
the tested node comes back `status='success'`).  A worker pulls a task only
after the in-loop check `success_limit > 0 and successful_count >=
success_limit` has passed; the success counter is incremented only when the
finished test emitted a success result. -/

inductive WStatus where
  | idle
  | busy (succeeds : Bool)
  | stopped
deriving Repr, DecidableEq

def WStatus.isBusy : WStatus → Bool
  | .busy _ => true
  | _ => false

structure PoolState where
  pending : List Bool
  workers : List WStatus
  succ : ℕ
deriving Repr, DecidableEq

def busyCount (s : PoolState) : ℕ := s.workers.countP WStatus.isBusy

def initPool (tasks : List Bool) (workerCount : ℕ) : PoolState :=
  ⟨tasks, List.replicate workerCount .idle, 0⟩

inductive PoolStep (K : ℕ) : PoolState → PoolState → Prop where
  /-- An idle worker takes the next task and starts testing it.  The guard
  mirrors `if self.success_limit > 0 and self.successful_count >=
  self.success_limit: break` — testing starts only below the cap. -/
  | pull (s : PoolState) (i : ℕ) (t : Bool) (rest : List Bool)
      (hw : s.workers.get? i = some .idle)
      (hq : s.pending = t :: rest)
      (hcap : K = 0 ∨ s.succ < K) :
      PoolStep K s ⟨rest, s.workers.set i (.busy t), s.succ⟩
  /-- An idle worker observes the cap reached and exits. -/
  | drainCap (s : PoolState) (i : ℕ)
      (hw : s.workers.get? i = some .idle)
      (hK : 0 < K) (hcap : K ≤ s.succ) :
      PoolStep K s ⟨s.pending, s.workers.set i .stopped, s.succ⟩
  /-- An idle worker receives the end-of-stream sentinel and exits. -/
  | drainEmpty (s : PoolState) (i : ℕ)
      (hw : s.workers.get? i = some .idle)
      (hq : s.pending = []) :
      PoolStep K s ⟨s.pending, s.workers.set i .stopped, s.succ⟩
  /-- A busy worker finishes its test, emits the Result and bumps the
  success counter when the Result was a success. -/
  | finish (s : PoolState) (i : ℕ) (t : Bool)
      (hw : s.workers.get? i = some (.busy t)) :
      PoolStep K s ⟨s.pending, s.workers.set i .idle,
                    s.succ + (if t then 1 else 0)⟩

inductive PoolReach (K : ℕ) (init : PoolState) : PoolState → Prop where
  | refl : PoolReach K init init
  | step {s s' : PoolState} : PoolReach K init s → PoolStep K s s' →
      PoolReach K init s'

/-! ## Concrete inputs used by the counterexamples and witnesses -/

/-- Two distinct subscription lines that parse to the same
`(server, port, type)` triple. -/
def c1Input : List String :=
  ["trojan://pw@1.2.3.4:8388#a", "trojan://pw@1.2.3.4:8388#b"]

def c2Node : Node := { type := "trojan", server := some "1.2.3.4", port := 443 }

/-- Direct probe succeeds (100 ms); both SOCKS5 pre-checks of the speed
stage fail, so the speed test is skipped. -/
def c2Env : TestEnv := ⟨none, some 100, none, none, none, false, false, none⟩

/-- Direct probe 100 ms, SOCKS5 probe 50 ms. -/
def c3Env : TestEnv := ⟨none, some 100, some 50, none, none, false, false, none⟩

/-- Direct probe succeeds (70 ms); nothing else matters. -/
def c3WitnessEnv : TestEnv := ⟨none, some 70, none, none, none, false, false, none⟩

/-- A well-formed ssr:// URI
(`1.2.3.4:8388:origin:aes-128-cfb:plain:cHc=`, base64-encoded). -/
def c5Ssr : String := "ssr://MS4yLjMuNDo4Mzg4Om9yaWdpbjphZXMtMTI4LWNmYjpwbGFpbjpjSGM9"

/-- A vmess:// URI whose body is
`{"add":"1.2.3.4","port":"70000","id":"u1"}`. -/
def c6Vmess : String := "vmess://eyJhZGQiOiIxLjIuMy40IiwicG9ydCI6IjcwMDAwIiwiaWQiOiJ1MSJ9"

/-- The node parsed from `trojan://pw@1.2.3.4:8388#b`. -/
def trojanNodeB : Node :=
  { name := some "b", type := "trojan", server := some "1.2.3.4",
    port := 8388, password := some "pw", sni := some "1.2.3.4" }

/-- The node parsed from `ss://aes-128-gcm:pw@1.2.3.4:8388#x`. -/
def ssNodeX : Node :=
  { name := some "x", type := "shadowsocks", server := some "1.2.3.4",
    port := 8388, method := some "aes-128-gcm", password := some "pw" }

/-- Base port 41000, no allocations, port 41000 released at time 0,
recycle delay 8. -/
def c9State : PortManagerState := ⟨41000, [], [(41000, 0)], 8⟩

def c9StateAfter : PortManagerState :=
  ⟨41000, [(41001, ⟨"n", 5⟩)], [(41000, 0)], 8⟩

def c10Node : Node :=
  { type := "vless", server := some "1.2.3.4", port := 443, uuid := some "u",
    security := some "tls", network := some "ws", sni := some "a.com" }

def c10Outbound : Outbound :=
  { otype := "vless", server := some "1.2.3.4", serverPort := some 443,
    uuid := some "u", transport := some ⟨"ws", some "/", none⟩ }

def c10Cfg : SingboxConfig :=
  { logLevel := "error", inboundType := "socks", inboundListen := "127.0.0.1",
    inboundListenPort := 1080, sniff := true, outbounds := [c10Outbound] }

/-! # Theorems -/

/-! ## C1 — deduplication -/

/-- C1 (counterexample).  The claim says the deduplication step keeps the
first occurrence of each `(server, port, type)` triple and that no two
output Nodes share that triple.  The code deduplicates the raw URI
*strings* (`list(set(all_nodes))`), so on the two-line input `c1Input` —
distinct strings, identical triple — every possible output of the call
(here: the input itself, which satisfies the `list(set(·))` relation)
still contains two Nodes with the same `(server, port, type)`. -/
theorem dedup_shares_key_counterexample :
    pyListSet c1Input c1Input ∧
    ¬ keysNodup (c1Input.filterMap parse_node_url) := by
  constructor
  · decide
  · have h : (c1Input.filterMap parse_node_url).map dedupKey =
        [(some "1.2.3.4", 8388, "trojan"), (some "1.2.3.4", 8388, "trojan")] := by
      decide
    intro hk
    unfold keysNodup at hk
    rw [h] at hk
    simp at hk

/-- C1 (amended).  The deduplication step operates on raw subscription-line
strings, not on parsed Nodes: any list that `list(set(all_nodes))` can
return contains each distinct input string exactly once and contains no
other string.  It does not key on `(server, port, type)` — distinct URI
strings sharing that triple all survive (see the counterexample). -/
theorem dedup_string_level (xs ys : List String) (h : pyListSet xs ys)
    (s : String) : ys.count s = if s ∈ xs then 1 else 0 := by
  obtain ⟨hnd, hsub, hsup⟩ := h
  by_cases hx : s ∈ xs
  · simp only [hx, if_true]
    exact List.count_eq_one_of_mem hnd (hsup s hx)
  · simp only [hx, if_false]
    exact List.count_eq_zero.mpr (fun hmem => hx (hsub s hmem))

/-- Witness for the amended C1 theorem at a concrete input. -/
theorem dedup_string_level_witness :
    pyListSet ["x", "y", "x"] ["x", "y"] ∧
    (["x", "y"] : List String).count "x" =
      (if "x" ∈ (["x", "y", "x"] : List String) then 1 else 0) :=
  ⟨by decide, dedup_string_level ["x", "y", "x"] ["x", "y"] (by decide) "x"⟩

/-! ## C2 — Result error/status invariant -/

/-- C2 (counterexample).  The claim says `error` is populated iff
`status = failed`.  A node whose connectivity test succeeds but whose
speed test fails gets `status = 'success'` *and*
`error = 'Speed test failed but connectivity OK'`. -/
theorem result_error_iff_failed_counterexample :
    (test_single_node c2Node c2Env).status = "success" ∧
    (test_single_node c2Node c2Env).error =
      some "Speed test failed but connectivity OK" := by
  constructor <;> rfl

/-- C2 (amended).  `status = failed` does imply a populated `error`, and
`status = success` does imply a non-null latency; but `error` is not
*only* populated on failure: a success Result carries the speed-test
failure note whenever its `error` is populated at all. -/
theorem result_error_latency_invariant (node : Node) (env : TestEnv) :
    ((test_single_node node env).status = "failed" →
      ((test_single_node node env).error).isSome) ∧
    ((test_single_node node env).status = "success" →
      ((test_single_node node env).httpLatency).isSome) ∧
    ((test_single_node node env).status = "success" →
      (test_single_node node env).error ≠ none →
      (test_single_node node env).error =
        some "Speed test failed but connectivity OK") := by
  unfold test_single_node
  cases henv : env.startupError with
  | some msg => simp
  | none =>
    cases hd : env.direct with
    | some l =>
      simp only [Option.isSome_some, Option.some.injEq]
      split <;> simp
    | none =>
      cases hh : env.http with
      | none => simp
      | some l =>
        simp only [Option.isSome_none, Option.some.injEq]
        split <;> simp

/-! ## C3 — Stage A ordering and latency selection -/

/-- C3 (counterexample).  The claim says the three methods run in order
until one succeeds and that the *smallest* successful latency becomes the
Result's latency.  With a direct probe of 100 ms and a SOCKS5 probe of
50 ms — both of which the code runs, the second *because* the first
succeeded — the Result's latency is 100, not the minimum 50. -/
theorem stageA_min_latency_counterexample :
    (test_single_node c2Node c3Env).httpLatency = some 100 ∧
    (50 : ℚ) < 100 := by
  refine ⟨rfl, by norm_num⟩

/-- C3 (amended).  Method 2 (SOCKS5 CONNECT) runs only *after* method 1
(the direct probe) has succeeded, not as a fallback, and method 3 (HTTP)
runs only when method 1 failed; the Result's latency is the direct
latency whenever the direct probe succeeds (even when the SOCKS5 probe
is smaller), otherwise it is the HTTP latency.  If no method succeeds,
the Result has `status = failed` and
`error = "All connectivity tests failed"`. -/
theorem stageA_characterization (node : Node) (env : TestEnv)
    (h : env.startupError = none) :
    (env.direct.isSome →
      (test_single_node node env).httpLatency = env.direct) ∧
    (env.direct = none →
      (test_single_node node env).httpLatency = env.http) ∧
    (env.direct = none → env.http = none →
      (test_single_node node env).status = "failed" ∧
      (test_single_node node env).error =
        some "All connectivity tests failed") := by
  unfold test_single_node
  rw [h]
  cases hd : env.direct with
  | some l => simp
  | none =>
    cases hh : env.http with
    | none => simp
    | some l => simp

/-- Witness for the amended C3 theorem at a concrete input. -/
theorem stageA_characterization_witness :
    (test_single_node c2Node c3WitnessEnv).httpLatency = c3WitnessEnv.direct :=
  (stageA_characterization c2Node c3WitnessEnv rfl).1 rfl

/-! ## C4 — temp config file cleanup -/

/-- C4 (counterexample).  The claim says the temp configuration file no
longer exists after *every* ended test attempt, including ones that fail
during engine startup.  `__aenter__` writes the file first and then
raises when the binary is missing; Python does not call `__aexit__` when
`__aenter__` raises, so the file is still on disk when the attempt ends. -/
theorem temp_config_leak_counterexample :
    (runAttempt ⟨.binaryMissing, false⟩ ⟨false⟩).tempFileExists = true := rfl

/-- C4 (amended).  The temp configuration file is gone after a test
attempt exactly when `__aenter__` succeeded (then `__aexit__` runs on
every path — body success, body exception, cancellation — and unlinks
it); an attempt that fails during engine startup leaves the file on
disk. -/
theorem temp_config_cleanup (env : RunnerEnv) (fs0 : FsState) :
    (runAttempt env fs0).tempFileExists = false ↔
      env.startup = StartupOutcome.ok := by
  cases env with
  | mk startup bodyRaises =>
    cases startup <;> simp [runAttempt, runnerAenter, runnerAexit]

/-! ## C7 — HTTP connectivity fallback -/

/-- C7 (counterexample).  The claim says any HTTP response with status
< 500 counts as a successful probe and contributes its elapsed time to
the measured latency.  A 404 response (status < 500) is not recorded at
all, and `_test_connectivity` returns `None` regardless. -/
theorem http_fallback_counterexample :
    404 < 500 ∧
    connectivityLoop [some (404, 50)] [] = [] ∧
    test_connectivity [some (404, 50)] = none := by
  exact ⟨by norm_num, rfl, rfl⟩

/-- Helper: the accumulator-style loop of `_test_connectivity` collects
exactly the elapsed times of responses whose status is in
`[200, 204, 301, 302]`. -/
theorem connectivityLoop_eq_filterMap (rs : List (Option (Nat × ℚ)))
    (acc : List ℚ) :
    connectivityLoop rs acc =
      acc ++ rs.filterMap (fun r =>
        match r with
        | some (st, el) => if connectivityRecorded st then some el else none
        | none => none) := by
  induction rs generalizing acc with
  | nil => simp [connectivityLoop]
  | cons r rest ih =>
    cases r with
    | none => simp [connectivityLoop, ih]
    | some p =>
      obtain ⟨st, el⟩ := p
      by_cases hrec : connectivityRecorded st
      · simp [connectivityLoop, hrec, ih]
      · simp [connectivityLoop, hrec, ih]

/-- C7 (amended).  Only responses with status in `[200, 204, 301, 302]`
are recorded as successful probes, and the recorded latencies never
reach the caller: the block that would average and return them sits
after the `return` statements of `_test_stability` (and refers to a
variable that does not exist there), so `_test_connectivity` returns
`None` on every input. -/
theorem http_fallback_characterization (rs : List (Option (Nat × ℚ))) :
    test_connectivity rs = none ∧
    connectivityLoop rs [] = rs.filterMap (fun r =>
      match r with
      | some (st, el) => if connectivityRecorded st then some el else none
      | none => none) := by
  exact ⟨rfl, connectivityLoop_eq_filterMap rs []⟩

/-! ## C9 — port cooldown -/

/-- Helper: an association-list entry surviving a `filter` is still found
first. -/
theorem lookupPort_filter {α : Type} (l : List (Int × α)) (p : Int) (v : α)
    (f : Int × α → Bool) (h : lookupPort l p = some v)
    (hf : f (p, v) = true) : lookupPort (l.filter f) p = some v := by
  induction l with
  | nil => simp [lookupPort] at h
  | cons e rest ih =>
    obtain ⟨q, w⟩ := e
    by_cases hq : q = p
    · subst hq
      have hw : w = v := by simpa [lookupPort] using h
      subst hw
      rw [List.filter_cons, if_pos hf]
      simp [lookupPort]
    · have h' : lookupPort rest p = some v := by
        simpa [lookupPort, hq] using h
      rw [List.filter_cons]
      split
      · simp only [lookupPort, if_neg hq]
        exact ih h'
      · exact ih h'

/-- Helper: the allocation scan only ever returns an eligible port. -/
theorem scanPort_eligible (elig : Int → Bool) (limit : Int) :
    ∀ (fuel : Nat) (p q : Int), scanPort elig limit fuel p = some q →
      elig q = true := by
  intro fuel
  induction fuel with
  | zero => intro p q h; simp [scanPort] at h
  | succ n ih =>
    intro p q h
    unfold scanPort at h
    by_cases he : elig p
    · rw [if_pos he, Option.some.injEq] at h
      subst h; exact he
    · rw [if_neg he] at h
      split at h
      · exact absurd h (by simp)
      · exact ih (p + 1) q h

/-- C9 (confirmed).  A port released at time `t` is skipped by every
allocation performed before `t + recycle_delay`: the pruning step keeps
its cooldown entry (`now - t > delay` is false) and the scan rejects any
port still present in `released_ports`. -/
theorem port_cooldown_respected (st : PortManagerState)
    (osInUse : Int → Bool) (nodeName : String) (now t : ℤ) (p q : Int)
    (st' : PortManagerState)
    (hrel : lookupPort st.released p = some t)
    (hnow : now < t + st.recycleDelay)
    (halloc : allocate_port now nodeName osInUse st = some (q, st')) :
    q ≠ p := by
  intro hqp
  unfold allocate_port at halloc
  split at halloc
  · exact absurd halloc (by simp)
  · rename_i r hscan
    simp only [Option.some.injEq, Prod.mk.injEq] at halloc
    obtain ⟨hr, _⟩ := halloc
    have helig : portEligible (pruneReleased now st) osInUse p = true := by
      have he := scanPort_eligible _ _ _ _ _ hscan
      rwa [hr, hqp] at he
    have hkeep : lookupPort (pruneReleased now st).released p = some t := by
      unfold pruneReleased
      exact lookupPort_filter st.released p t _ hrel (by
        simp only [decide_eq_true_eq]
        intro hgt
        have : now - t ≤ st.recycleDelay := by linarith
        exact absurd hgt (not_lt.mpr this))
    unfold portEligible at helig
    simp only [Bool.and_eq_true, decide_eq_true_eq] at helig
    rw [hkeep] at helig
    simp at helig

/-- Witness for C9: a port released at time 0 with an 8 s cooldown is not
returned by an allocation at time 5; the scan hands out 41001 instead. -/
theorem port_cooldown_respected_witness : (41001 : Int) ≠ 41000 :=
  port_cooldown_respected c9State (fun _ => false) "n" 5 0 41000 41001
    c9StateAfter (by decide) (by decide) (by decide)

/-! ## C10 — vless TLS handling unreachable for supported networks -/

/-- Helper: a vless outbound only carries a `tls` entry (or a `flow`) when
the node's network is `xhttp`, `httpupgrade` or `splithttp` — the
security/TLS/REALITY block of the source is indented inside that branch. -/
theorem vlessOutbound_tls_network (node : Node) (ob : Outbound)
    (h : vlessOutbound node = some ob) :
    ob.tls ≠ none ∨ ob.flow ≠ none →
      node.network.getD "tcp" = "xhttp" ∨
      node.network.getD "tcp" = "httpupgrade" ∨
      node.network.getD "tcp" = "splithttp" := by
  unfold vlessOutbound at h
  cases huuid : node.uuid with
  | none => rw [huuid] at h; exact absurd h (by simp)
  | some uuid =>
    rw [huuid] at h
    simp only [] at h
    split_ifs at h with h1 h2 h3 h4 h5 h6 h7 <;>
      (replace h := Option.some.inj h; subst h; intro hne) <;>
      first
        | exact h4
        | simp at hne

/-- C10 (confirmed).  For every vless Node whose network is `tcp`, `ws`,
`grpc` or `h2`, the generated outbound contains no `tls` entry even when
the Node carries `security=tls` or `security=reality` with `sni`, `pbk`,
`sid`, `fp`; conversely a `tls` entry can only appear when the network is
`xhttp`, `httpupgrade` or `splithttp`. -/
theorem vless_tls_unreachable (node : Node) (socksPort : Int)
    (cfg : SingboxConfig) (ob : Outbound)
    (hty : node.type = "vless")
    (hgen : generateSingboxConfig node socksPort = some cfg)
    (hob : ob ∈ cfg.outbounds) :
    ((node.network.getD "tcp" = "tcp" ∨ node.network.getD "tcp" = "ws" ∨
      node.network.getD "tcp" = "grpc" ∨ node.network.getD "tcp" = "h2") →
      ob.tls = none) ∧
    (ob.tls ≠ none →
      node.network.getD "tcp" = "xhttp" ∨
      node.network.getD "tcp" = "httpupgrade" ∨
      node.network.getD "tcp" = "splithttp") := by
  unfold generateSingboxConfig at hgen
  rw [hty] at hgen
  simp only [if_pos rfl] at hgen
  cases hvo : vlessOutbound node with
  | none => rw [hvo] at hgen; exact absurd hgen (by simp)
  | some ob' =>
    rw [hvo] at hgen
    simp only [Option.map] at hgen
    replace hgen := Option.some.inj hgen
    subst hgen
    simp only [List.mem_singleton] at hob
    subst hob
    have hnet := vlessOutbound_tls_network node ob hvo
    constructor
    · intro hsupported
      by_contra htls
      rcases hnet (Or.inl htls) with hx | hx | hx <;>
        rcases hsupported with hs | hs | hs | hs <;>
        rw [hs] at hx <;> exact absurd hx (by decide)
    · intro htls
      exact hnet (Or.inl htls)

/-- Witness for C10: a concrete vless node with `security=tls` over
WebSocket produces an outbound with no `tls` entry. -/
theorem vless_tls_unreachable_witness : c10Outbound.tls = none :=
  (vless_tls_unreachable c10Node 1080 c10Cfg c10Outbound rfl (by decide)
      (by decide)).1 (by decide)

/-! ## Per-parser shape lemmas (shared by C5 and C6) -/

/-- A node from `_parse_ss_server_part` is a shadowsocks node with
`0 < port ≤ 65535` (the explicit range check of the source). -/
theorem parseSsServerPart_spec (sp m pw : List Char) (nm : Option (List Char))
    (n : Node) (h : parseSsServerPart sp m pw nm = some n) :
    n.type = "shadowsocks" ∧ 1 ≤ n.port ∧ n.port ≤ 65535 := by
  unfold parseSsServerPart at h
  split at h
  · exact absurd h (by simp)
  · split at h
    · exact absurd h (by simp)
    · split_ifs at h with hrange
      replace h := Option.some.inj h
      subst h
      push_neg at hrange
      refine ⟨rfl, ?_, ?_⟩ <;> dsimp only <;> omega

/-- A node from `_parse_ss_standard_format` is a shadowsocks node with a
valid port. -/
theorem parseSsStandardFormat_spec (content : List Char)
    (nm : Option (List Char)) (n : Node)
    (h : parseSsStandardFormat content nm = some n) :
    n.type = "shadowsocks" ∧ 1 ≤ n.port ∧ n.port ≤ 65535 := by
  unfold parseSsStandardFormat at h
  split at h
  · exact absurd h (by simp)
  · split at h
    · exact absurd h (by simp)
    · exact parseSsServerPart_spec _ _ _ _ _ h

/-- Shape (i) yields a shadowsocks node with a valid port. -/
theorem parseSsWay1_spec (enc : List Char) (nm : Option (List Char))
    (n : Node) (h : parseSsWay1 enc nm = some n) :
    n.type = "shadowsocks" ∧ 1 ≤ n.port ∧ n.port ≤ 65535 := by
  unfold parseSsWay1 at h
  split at h
  · exact absurd h (by simp)
  · split at h
    · exact absurd h (by simp)
    · exact parseSsStandardFormat_spec _ _ _ h

/-- Shape (iii) yields a shadowsocks node with a valid port. -/
theorem parseSsWay3_spec (enc : List Char) (nm : Option (List Char))
    (n : Node) (h : parseSsWay3 enc nm = some n) :
    n.type = "shadowsocks" ∧ 1 ≤ n.port ∧ n.port ≤ 65535 := by
  unfold parseSsWay3 at h
  split at h
  · exact absurd h (by simp)
  · split at h
    · exact absurd h (by simp)
    · split at h
      · exact absurd h (by simp)
      · split_ifs at h
        split at h
        · exact absurd h (by simp)
        · exact parseSsServerPart_spec _ _ _ _ _ h

/-- Every shape of the ss body yields a shadowsocks node with a valid
port. -/
theorem parseSsBody_spec (enc : List Char) (nm : Option (List Char))
    (n : Node) (h : parseSsBody enc nm = some n) :
    n.type = "shadowsocks" ∧ 1 ≤ n.port ∧ n.port ≤ 65535 := by
  unfold parseSsBody at h
  split at h
  · rename_i n0 hway1
    replace h := Option.some.inj h
    subst h
    exact parseSsWay1_spec _ _ _ hway1
  · split at h
    · rename_i n0 hway2
      replace h := Option.some.inj h
      subst h
      exact parseSsStandardFormat_spec _ _ _ hway2
    · exact parseSsWay3_spec _ _ _ h

/-- A node from `_parse_shadowsocks_url` is a shadowsocks node with a valid
port: all three accepted shapes end in `_parse_ss_server_part`. -/
theorem parseShadowsocksUrl_spec (url : String) (n : Node)
    (h : parseShadowsocksUrl url = some n) :
    n.type = "shadowsocks" ∧ 1 ≤ n.port ∧ n.port ≤ 65535 := by
  simp only [parseShadowsocksUrl] at h
  split at h
  · exact parseSsBody_spec _ _ _ h
  · exact parseSsBody_spec _ _ _ h

/-- A node from `_parse_vless_url` is a vless node with `0 < port ≤ 65535`
(the explicit range check of the source). -/
theorem parseVlessUrl_spec (url : String) (n : Node)
    (h : parseVlessUrl url = some n) :
    n.type = "vless" ∧ 1 ≤ n.port ∧ n.port ≤ 65535 := by
  simp only [parseVlessUrl] at h
  split at h
  · rename_i uuid server _
    split_ifs at h with hempty
    split at h
    · exact absurd h (by simp)
    · exact absurd h (by simp)
    · rename_i port _
      split_ifs at h with hrange
      replace h := Option.some.inj h
      subst h
      push_neg at hrange
      refine ⟨rfl, ?_, ?_⟩ <;> dsimp only <;> omega
  · exact absurd h (by simp)

/-- A node from `_parse_trojan_url` is a trojan node. -/
theorem parseTrojanUrl_spec (url : String) (n : Node)
    (h : parseTrojanUrl url = some n) : n.type = "trojan" := by
  simp only [parseTrojanUrl] at h
  split at h
  · exact absurd h (by simp)
  · split at h
    · exact absurd h (by simp)
    · replace h := Option.some.inj h
      subst h
      rfl

/-- A node from `_parse_vmess_url` is a vmess node. -/
theorem parseVmessUrl_spec (url : String) (n : Node)
    (h : parseVmessUrl url = some n) : n.type = "vmess" := by
  unfold parseVmessUrl at h
  repeat'
    first
      | (exact Option.noConfusion h)
      | split at h
  all_goals
    replace h := Option.some.inj h
    subst h
    rfl

/-- A node from `_parse_shadowsocksr_url` is a shadowsocksr node. -/
theorem parseShadowsocksrUrl_spec (url : String) (n : Node)
    (h : parseShadowsocksrUrl url = some n) : n.type = "shadowsocksr" := by
  unfold parseShadowsocksrUrl at h
  repeat'
    first
      | (exact Option.noConfusion h)
      | split at h
  all_goals
    replace h := Option.some.inj h
    subst h
    rfl

/-! ## C5 — accepted scheme families -/

/-- C5 (counterexample).  The claim says every ssr:// line is rejected and
every returned Node has type in {shadowsocks, vmess, vless, trojan}.  The
dispatcher routes ssr:// lines to `_parse_shadowsocksr_url`, which parses
them into Nodes of type `'shadowsocksr'`. -/
theorem ssr_not_rejected_counterexample :
    (parse_node_url c5Ssr).map Node.type = some "shadowsocksr" ∧
    ("shadowsocksr" : String) ∉
      (["shadowsocks", "vmess", "vless", "trojan"] : List String) := by
  exact ⟨by decide, by decide⟩

/-- C5 (amended).  Hysteria, TUIC and unrecognised schemes are rejected,
but ssr:// is parsed: every Node the parser returns has type in
{shadowsocks, vmess, vless, trojan, shadowsocksr}. -/
theorem parser_scheme_types (url : String) (n : Node)
    (h : parse_node_url url = some n) :
    n.type = "shadowsocks" ∨ n.type = "vmess" ∨ n.type = "vless" ∨
    n.type = "trojan" ∨ n.type = "shadowsocksr" := by
  simp only [parse_node_url] at h
  split_ifs at h with h0 h1 h2 h3 h4 h5
  · exact Or.inr (Or.inl (parseVmessUrl_spec _ _ h))
  · exact Or.inr (Or.inr (Or.inl (parseVlessUrl_spec _ _ h).1))
  · exact Or.inr (Or.inr (Or.inr (Or.inl (parseTrojanUrl_spec _ _ h))))
  · exact Or.inl (parseShadowsocksUrl_spec _ _ h).1
  · exact Or.inr (Or.inr (Or.inr (Or.inr (parseShadowsocksrUrl_spec _ _ h))))

/-- Witness for the amended C5 theorem at a concrete input. -/
theorem parser_scheme_types_witness :
    parse_node_url "trojan://pw@1.2.3.4:8388#b" = some trojanNodeB ∧
    (trojanNodeB.type = "shadowsocks" ∨ trojanNodeB.type = "vmess" ∨
     trojanNodeB.type = "vless" ∨ trojanNodeB.type = "trojan" ∨
     trojanNodeB.type = "shadowsocksr") :=
  ⟨by decide, parser_scheme_types "trojan://pw@1.2.3.4:8388#b" trojanNodeB
      (by decide)⟩

/-! ## C6 — port range -/

/-- C6 (counterexample).  The claim says every parsed Node (any scheme,
including vmess) has `1 ≤ port ≤ 65535`.  The vmess parser converts the
port with `int(...)` and never checks a range: a body with
`"port":"70000"` yields a Node with port 70000. -/
theorem vmess_port_range_counterexample :
    (parse_node_url c6Vmess).map Node.port = some 70000 ∧
    ¬ ((70000 : Int) ≤ 65535) := by
  exact ⟨by decide, by decide⟩

/-- C6 (amended).  Only the shadowsocks and vless parsers enforce
`1 ≤ port ≤ 65535`.  The vmess parser applies no range check at all (see
the counterexample: port 70000 is accepted) and the trojan parser accepts
port 0 (`urlparse` bounds the port to [0, 65535] but `int('0')` passes). -/
theorem ss_vless_port_range (url : String) (n : Node)
    (h : parse_node_url url = some n) :
    (n.type = "shadowsocks" → 1 ≤ n.port ∧ n.port ≤ 65535) ∧
    (n.type = "vless" → 1 ≤ n.port ∧ n.port ≤ 65535) := by
  simp only [parse_node_url] at h
  split_ifs at h with h0 h1 h2 h3 h4 h5
  · have ht := parseVmessUrl_spec _ _ h
    constructor <;> (intro hty; rw [ht] at hty; exact absurd hty (by decide))
  · have ht := parseVlessUrl_spec _ _ h
    exact ⟨fun hty => absurd (ht.1 ▸ hty) (by decide), fun _ => ht.2⟩
  · have ht := parseTrojanUrl_spec _ _ h
    constructor <;> (intro hty; rw [ht] at hty; exact absurd hty (by decide))
  · have ht := parseShadowsocksUrl_spec _ _ h
    exact ⟨fun _ => ht.2, fun hty => absurd (ht.1 ▸ hty) (by decide)⟩
  · have ht := parseShadowsocksrUrl_spec _ _ h
    constructor <;> (intro hty; rw [ht] at hty; exact absurd hty (by decide))

/-- Witness for the amended C6 theorem at a concrete input. -/
theorem ss_vless_port_range_witness :
    parse_node_url "ss://aes-128-gcm:pw@1.2.3.4:8388#x" = some ssNodeX ∧
    (1 ≤ ssNodeX.port ∧ ssNodeX.port ≤ 65535) :=
  ⟨by decide,
   (ss_vless_port_range "ss://aes-128-gcm:pw@1.2.3.4:8388#x" ssNodeX
       (by decide)).1 (by decide)⟩

/-! ## C8 — success cap -/

/-- Helper: how `List.set` changes a `countP`, given the element it
replaces. -/
theorem countP_set_add (p : WStatus → Bool) :
    ∀ (l : List WStatus) (i : ℕ) (a b : WStatus), l.get? i = some a →
      (l.set i b).countP p + (if p a then 1 else 0) =
        l.countP p + (if p b then 1 else 0) := by
  intro l
  induction l with
  | nil => intro i a b hg; simp at hg
  | cons x xs ih =>
    intro i a b hg
    cases i with
    | zero =>
      simp only [List.get?] at hg
      replace hg := Option.some.inj hg
      subst hg
      simp only [List.set, List.countP_cons]
      omega
    | succ j =>
      simp only [List.get?] at hg
      have := ih j a b hg
      simp only [List.set, List.countP_cons]
      omega

/-- Helper: a list with a known non-`p` element has `countP p` below its
length. -/
theorem countP_lt_length (p : WStatus → Bool) :
    ∀ (l : List WStatus) (i : ℕ) (a : WStatus), l.get? i = some a →
      p a = false → l.countP p < l.length := by
  intro l
  induction l with
  | nil => intro i a hg; simp at hg
  | cons x xs ih =>
    intro i a hg hpa
    cases i with
    | zero =>
      simp only [List.get?] at hg
      replace hg := Option.some.inj hg
      subst hg
      have hc := List.countP_le_length (l := xs) (p := p)
      simp [List.countP_cons, hpa]
      omega
    | succ j =>
      simp only [List.get?] at hg
      have := ih j a hg hpa
      have hx : (if p x then 1 else 0) ≤ 1 := by split <;> omega
      simp only [List.countP_cons, List.length_cons]
      omega

/-- Helper: the worker-pool invariant.  With a positive cap `K` and `W`
workers, at every reachable state the number of emitted successes plus the
number of in-flight tests stays below `K + W`, and the worker list keeps
its length. -/
theorem poolInvariant (K W : ℕ) (hK : 1 ≤ K) (tasks : List Bool)
    (s : PoolState) (h : PoolReach K (initPool tasks W) s) :
    s.succ + busyCount s ≤ K + W - 1 ∧ s.workers.length = W := by
  induction h with
  | refl =>
    constructor
    · have hb : busyCount (initPool tasks W) = 0 := by
        apply List.countP_eq_zero.mpr
        intro a ha
        rw [List.eq_of_mem_replicate ha]
        decide
      rw [hb]
      simp only [initPool]
      omega
    · simp [initPool]
  | step hr hs ih =>
    obtain ⟨ihb, ihl⟩ := ih
    rename_i s s'
    cases hs with
    | pull i t rest hw hq hcap =>
      rcases hcap with hcap | hcap
      · omega
      · have hadd := countP_set_add WStatus.isBusy s.workers i .idle (.busy t) hw
        have hlt := countP_lt_length WStatus.isBusy s.workers i .idle hw rfl
        constructor
        · simp only [busyCount] at *
          try simp [WStatus.isBusy] at hadd
          try simp only [List.length_set]
          omega
        · simp only [List.length_set]
          exact ihl
    | drainCap i hw hKpos hcap =>
      have hadd := countP_set_add WStatus.isBusy s.workers i .idle .stopped hw
      refine ⟨?_, by simpa [List.length_set] using ihl⟩
      simp only [busyCount] at *
      try simp [WStatus.isBusy] at hadd
      omega
    | drainEmpty i hw hq =>
      have hadd := countP_set_add WStatus.isBusy s.workers i .idle .stopped hw
      refine ⟨?_, by simpa [List.length_set] using ihl⟩
      simp only [busyCount] at *
      try simp [WStatus.isBusy] at hadd
      omega
    | finish i t hw =>
      have hadd := countP_set_add WStatus.isBusy s.workers i (.busy t) .idle hw
      refine ⟨?_, by simpa [List.length_set] using ihl⟩
      simp only [busyCount] at *
      try simp [WStatus.isBusy] at hadd
      have ht : (if t then 1 else 0) ≤ 1 := by split <;> omega
      omega

/-- C8 (counterexample).  The claim says the pool emits at most K
`status=success` Results.  With `success_limit = 1` and two workers, both
workers pass the in-loop cap check while the counter is still 0, test
their nodes concurrently, and both record a success: the pool reaches a
state with 2 > 1 successes. -/
theorem success_cap_exceeded_counterexample :
    PoolReach 1 (initPool [true, true] 2)
      ⟨[], [WStatus.idle, WStatus.idle], 2⟩ ∧ 1 < 2 := by
  constructor
  · have h1 : PoolStep 1 (initPool [true, true] 2)
        ⟨[true], [WStatus.busy true, WStatus.idle], 0⟩ :=
      PoolStep.pull _ 0 true [true] (by decide) (by decide)
        (Or.inr (by decide))
    have h2 : PoolStep 1 (⟨[true], [WStatus.busy true, WStatus.idle], 0⟩ : PoolState)
        ⟨[], [WStatus.busy true, WStatus.busy true], 0⟩ :=
      PoolStep.pull _ 1 true [] (by decide) (by decide)
        (Or.inr (by decide))
    have h3 : PoolStep 1 (⟨[], [WStatus.busy true, WStatus.busy true], 0⟩ : PoolState)
        ⟨[], [WStatus.idle, WStatus.busy true], 1⟩ :=
      PoolStep.finish _ 0 true (by decide)
    have h4 : PoolStep 1 (⟨[], [WStatus.idle, WStatus.busy true], 1⟩ : PoolState)
        ⟨[], [WStatus.idle, WStatus.idle], 2⟩ :=
      PoolStep.finish _ 1 true (by decide)
    exact PoolReach.step (PoolReach.step (PoolReach.step
      (PoolReach.step PoolReach.refl h1) h2) h3) h4
  · decide

/-- C8 (amended).  With `success_limit = K > 0` and `W` workers, the pool
emits at most `K + W - 1` success Results (the worker recording the Kth
success plus one in-flight node per remaining worker), and no worker
starts testing a node once the success count has reached `K` — the
"no more than one extra Node per worker after the Kth success" half of the
claim holds, but the "at most K successes" half does not (see the
counterexample). -/
theorem success_cap_bound (K W : ℕ) (hK : 1 ≤ K) (tasks : List Bool)
    (s : PoolState) (h : PoolReach K (initPool tasks W) s) :
    s.succ ≤ K + W - 1 ∧
    (∀ s', PoolStep K s s' → s'.pending.length < s.pending.length →
      s.succ < K) := by
  constructor
  · have := (poolInvariant K W hK tasks s h).1
    omega
  · intro s' hs hlen
    cases hs with
    | pull i t rest hw hq hcap =>
      rcases hcap with hcap | hcap
      · omega
      · exact hcap
    | drainCap i hw hKpos hcap => simp at hlen
    | drainEmpty i hw hq => simp at hlen
    | finish i t hw => simp at hlen

/-- Witness for the amended C8 theorem at a concrete input: the two-worker
cap-1 trace from the counterexample stays within the amended bound
`K + W - 1 = 2`. -/
theorem success_cap_bound_witness :
    (1 ≤ 1) ∧
    (⟨[], [WStatus.idle, WStatus.idle], 2⟩ : PoolState).succ ≤ 1 + 2 - 1 := by
  refine ⟨by decide, ?_⟩
  refine (success_cap_bound 1 2 (by decide) [true, true]
      ⟨[], [WStatus.idle, WStatus.idle], 2⟩ ?_).1
  have h1 : PoolStep 1 (initPool [true, true] 2)
      ⟨[true], [WStatus.busy true, WStatus.idle], 0⟩ :=
    PoolStep.pull _ 0 true [true] (by decide) (by decide) (Or.inr (by decide))
  have h2 : PoolStep 1 (⟨[true], [WStatus.busy true, WStatus.idle], 0⟩ : PoolState)
      ⟨[], [WStatus.busy true, WStatus.busy true], 0⟩ :=
    PoolStep.pull _ 1 true [] (by decide) (by decide) (Or.inr (by decide))
  have h3 : PoolStep 1 (⟨[], [WStatus.busy true, WStatus.busy true], 0⟩ : PoolState)
      ⟨[], [WStatus.idle, WStatus.busy true], 1⟩ :=
    PoolStep.finish _ 0 true (by decide)
  have h4 : PoolStep 1 (⟨[], [WStatus.idle, WStatus.busy true], 1⟩ : PoolState)
      ⟨[], [WStatus.idle, WStatus.idle], 2⟩ :=
    PoolStep.finish _ 1 true (by decide)
  exact PoolReach.step (PoolReach.step (PoolReach.step
    (PoolReach.step PoolReach.refl h1) h2) h3) h4

end SubsCheck
